import Mathlib

/-!
Verification of the url_shortner redirect server (src/main.go).

The embedding models the handler-resolution chain of the Go program:
`YAMLHandler` / `JSONHandler` (decode a rule list, scan in order, 301 on
first exact path match, else fallback), `MapHandler` (map lookup, 301 on
hit, else fallback), the default hello-world handler, and `main`'s
selection of the top-level handler from the optional YAML/JSON payloads.

Byte-level parsing is performed by external libraries (gopkg.in/yaml.v2
and encoding/json), so a supplied payload is represented by its parse
result: either a parse error, or a structured value (`Jval`).  Field
extraction from the parsed value into `URLMapper` records, which decides
decode success, is modelled below (`unmarshalMappers`).
-/

namespace UrlShort

/-- One decoded rule, mirroring `type URLMapper struct { Path, URL string }`
of src/main.go with yaml/json tags `path` and `url`. -/
structure URLMapper where
  Path : String
  URL : String
deriving DecidableEq, Repr

/-- The observable part of an HTTP request that the program reads:
handlers only inspect `r.URL.Path`; method and query are carried to show
they do not influence the outcome. -/
structure Request where
  path : String
  method : String
  rawQuery : String
deriving DecidableEq, Repr

/-- The observable response a handler produces: either a redirect with a
status code and a Location header, or a page with a status and a body. -/
inductive Response where
  | redirect (status : Nat) (location : String)
  | page (status : Nat) (body : String)
deriving DecidableEq, Repr

/-- A handler maps a request to a response, mirroring `http.HandlerFunc`. -/
abbrev Handler := Request → Response

/-- A structured value produced by parsing a YAML or JSON payload. -/
inductive Jval where
  | null
  | bool (b : Bool)
  | num (n : Int)
  | str (s : String)
  | arr (elems : List Jval)
  | obj (fields : List (String × Jval))

/-- Modelled from the spec: the library decode of one parsed object's
fields into a `URLMapper`, Go-style — fields are consumed in order, a
`path` or `url` key with a string value sets the struct field (later
occurrences overwrite earlier ones), a null value leaves it unchanged, a
value of any other kind is a type error, and unknown keys are ignored. -/
def decodeMapperFields : URLMapper → List (String × Jval) → Except String URLMapper
  | acc, [] => .ok acc
  | acc, (k, v) :: rest =>
    if k = "path" then
      match v with
      | .str s => decodeMapperFields { acc with Path := s } rest
      | .null => decodeMapperFields acc rest
      | _ => .error "cannot unmarshal value into string field URLMapper.path"
    else if k = "url" then
      match v with
      | .str s => decodeMapperFields { acc with URL := s } rest
      | .null => decodeMapperFields acc rest
      | _ => .error "cannot unmarshal value into string field URLMapper.url"
    else
      decodeMapperFields acc rest

/-- Modelled from the spec: the library decode of one parsed list element
into a `URLMapper`; an object decodes field by field, null leaves the zero
struct, anything else is a type error. -/
def decodeMapper : Jval → Except String URLMapper
  | .obj fields => decodeMapperFields ⟨"", ""⟩ fields
  | .null => .ok ⟨"", ""⟩
  | _ => .error "cannot unmarshal value into URLMapper"

/-- Modelled from the spec: decode each element of a parsed list in order,
stopping at the first type error. -/
def decodeMappers : List Jval → Except String (List URLMapper)
  | [] => .ok []
  | x :: xs =>
    match decodeMapper x with
    | .error e => .error e
    | .ok m =>
      match decodeMappers xs with
      | .error e => .error e
      | .ok ms => .ok (m :: ms)

/-- Modelled from the spec: `Unmarshal` of a parsed payload into
`[]URLMapper` — the top-level value must be a list (a null document leaves
the nil slice, which is the empty rule set); any other kind is a type
error. -/
def unmarshalMappers : Jval → Except String (List URLMapper)
  | .null => .ok []
  | .arr xs => decodeMappers xs
  | _ => .error "cannot unmarshal value into slice of URLMapper"

/-- A supplied payload is its parse outcome: a byte-level parse error or a
parsed structured value. -/
abbrev Payload := Except String Jval

/-- The full decode of a payload: parse (already performed) then
unmarshal. -/
def decodePayload (p : Payload) : Except String (List URLMapper) :=
  p.bind unmarshalMappers

/-- The closure returned by `YAMLHandler` / `JSONHandler` in src/main.go:
scan the decoded mappers in order; on the first whose `Path` equals the
request path, redirect with status 301 to its `URL`; otherwise call the
fallback. -/
def structuredServe : List URLMapper → Handler → Handler
  | [], fallback, r => fallback r
  | m :: rest, fallback, r =>
    if m.Path = r.path then Response.redirect 301 m.URL
    else structuredServe rest fallback r

/-- Embeds `YAMLHandler` of src/main.go: unmarshal the payload; on error
return the error and no handler, on success return the scanning closure. -/
def YAMLHandler (YAML : Payload) (fallback : Handler) : Except String Handler :=
  match decodePayload YAML with
  | .error e => .error e
  | .ok mappers => .ok (structuredServe mappers fallback)

/-- Embeds `JSONHandler` of src/main.go: identical to `YAMLHandler` up to
the decoding library. -/
def JSONHandler (JSON : Payload) (fallback : Handler) : Except String Handler :=
  match decodePayload JSON with
  | .error e => .error e
  | .ok mappers => .ok (structuredServe mappers fallback)

/-- Embeds `MapHandler` of src/main.go: look the request path up in the
map; on a hit redirect with status 301 to the mapped URL, on a miss call
the fallback.  The Go map literal has unique keys; it is modelled as an
association list. -/
def MapHandler (pathsToUrls : List (String × String)) (fallback : Handler) : Handler :=
  fun r =>
    match pathsToUrls.lookup r.path with
    | some originalURL => Response.redirect 301 originalURL
    | none => fallback r

/-- Embeds `helloWorldHandler` of src/main.go: `fmt.Fprintln(w, "Hello,
world!")` writes the fixed body followed by a newline with the default
status 200. -/
def helloWorldHandler : Handler :=
  fun _ => Response.page 200 "Hello, world!\n"

/-- Embeds `makeDefaultMux` of src/main.go: a mux whose sole pattern `/`
dispatches every request to `helloWorldHandler` (host-server path
canonicalisation is outside the modelled scope). -/
def makeDefaultMux : Handler :=
  helloWorldHandler

/-- The built-in static mapping of `makeMapHandler` in src/main.go. -/
def builtinMap : List (String × String) :=
  [("/urlshort-godoc", "https://godoc.org/github.com/gophercises/urlshort"),
   ("/yaml-godoc", "https://godoc.org/gopkg.in/yaml.v2")]

/-- Embeds `makeMapHandler` of src/main.go. -/
def makeMapHandler (mux : Handler) : Handler :=
  MapHandler builtinMap mux

/-- The outcome of process startup: either the server starts serving with
a composed handler, or the process aborts with an error before
`startServer` is reached. -/
inductive StartupResult where
  | started (h : Handler)
  | aborted (err : String)

/-- Embeds `makeYAMLHandler` of src/main.go: build the handler; on decode
error abort the process with that error. -/
def makeYAMLHandler (yamlBytes : Payload) (fallbackHandler : Handler) : StartupResult :=
  match YAMLHandler yamlBytes fallbackHandler with
  | .error e => .aborted e
  | .ok handler => .started handler

/-- Embeds `makeJSONHandler` of src/main.go: build the handler; on decode
error abort the process with that error. -/
def makeJSONHandler (jsonBytes : Payload) (fallbackHandler : Handler) : StartupResult :=
  match JSONHandler jsonBytes fallbackHandler with
  | .error e => .aborted e
  | .ok handler => .started handler

/-- Embeds the selection in `main` of src/main.go: `none` stands for nil
bytes (flag absent or file unreadable); if the YAML bytes are non-nil the
YAML handler is built, else if the JSON bytes are non-nil the JSON handler
is built, else the map handler is used directly. -/
def mainStartup (yamlBytes jsonBytes : Option Payload) : StartupResult :=
  let mapHandler := makeMapHandler makeDefaultMux
  match yamlBytes with
  | some yb => makeYAMLHandler yb mapHandler
  | none =>
    match jsonBytes with
    | some jb => makeJSONHandler jb mapHandler
    | none => .started mapHandler

/-- The response the running server gives to a request, or `none` when
startup aborted and the server never serves. -/
def serveMain (yamlBytes jsonBytes : Option Payload) (r : Request) : Option Response :=
  match mainStartup yamlBytes jsonBytes with
  | .started h => some (h r)
  | .aborted _ => none

/-- Modelled from the spec (section 4.3), for refinement comparison with
`mainStartup`: a supplied payload together with whether the supplied file
was empty; the spec selects the YAML router only when the YAML payload was
supplied AND non-empty, else the JSON router under the same condition,
else the exact-match handler. -/
structure SpecPayload where
  isEmpty : Bool
  parsed : Payload

/-- Modelled from the spec (section 4.3): the spec's router selection,
keyed on supplied-and-non-empty rather than on non-nil bytes. -/
def specStartup : Option SpecPayload → Option SpecPayload → StartupResult
  | some ⟨false, py⟩, _ => makeYAMLHandler py (makeMapHandler makeDefaultMux)
  | some ⟨true, _⟩, some ⟨false, pj⟩ => makeJSONHandler pj (makeMapHandler makeDefaultMux)
  | none, some ⟨false, pj⟩ => makeJSONHandler pj (makeMapHandler makeDefaultMux)
  | _, _ => .started (makeMapHandler makeDefaultMux)

/-- The spec-side variant of `serveMain`. -/
def specServe (yaml json : Option SpecPayload) (r : Request) : Option Response :=
  match specStartup yaml json with
  | .started h => some (h r)
  | .aborted _ => none

/-- Maps a spec-side payload to the bytes `main` actually sees: a supplied
file yields non-nil bytes whether or not it is empty. -/
def toBytes : Option SpecPayload → Option Payload
  | none => none
  | some sp => some sp.parsed

/-! ## Helper lemmas on the scanning loop and the decoders -/

lemma structuredServe_of_find?_some (mappers : List URLMapper) (fb : Handler) (r : Request)
    (m : URLMapper) (h : mappers.find? (fun x => x.Path == r.path) = some m) :
    structuredServe mappers fb r = Response.redirect 301 m.URL := by
  induction mappers with
  | nil => simp [List.find?] at h
  | cons m0 rest ih =>
    by_cases hp : m0.Path = r.path
    · rw [List.find?_cons_of_pos _ (by simpa using hp)] at h
      cases h
      simp [structuredServe, hp]
    · rw [List.find?_cons_of_neg _ (by simpa using hp)] at h
      simp only [structuredServe, if_neg hp]
      exact ih h

lemma structuredServe_of_find?_none (mappers : List URLMapper) (fb : Handler) (r : Request)
    (h : mappers.find? (fun x => x.Path == r.path) = none) :
    structuredServe mappers fb r = fb r := by
  induction mappers with
  | nil => simp [structuredServe]
  | cons m0 rest ih =>
    by_cases hp : m0.Path = r.path
    · rw [List.find?_cons_of_pos _ (by simpa using hp)] at h
      cases h
    · rw [List.find?_cons_of_neg _ (by simpa using hp)] at h
      simp only [structuredServe, if_neg hp]
      exact ih h

lemma find?_some_of_exists (mappers : List URLMapper) (r : Request)
    (h : ∃ m ∈ mappers, m.Path = r.path) :
    ∃ m, mappers.find? (fun x => x.Path == r.path) = some m := by
  rw [← Option.isSome_iff_exists, List.find?_isSome]
  obtain ⟨m, hm, hp⟩ := h
  exact ⟨m, hm, by simpa using hp⟩

lemma find?_none_of_forall (mappers : List URLMapper) (r : Request)
    (h : ∀ m ∈ mappers, m.Path ≠ r.path) :
    mappers.find? (fun x => x.Path == r.path) = none := by
  rw [List.find?_eq_none]
  intro m hm
  simpa using h m hm

/-! ## Claim theorems -/

/-- C1: for every decoded RuleSet and request path, the structured-rule
handler (YAML or JSON variant) issues a 301 redirect to the url of the
first rule whose path equals the request path and stops; if no rule
matches, the fallback handler's response is returned unchanged. -/
theorem claim1_first_match_redirect (Y : Payload) (mappers : List URLMapper)
    (fb : Handler) (r : Request) (hdec : decodePayload Y = .ok mappers) :
    YAMLHandler Y fb = .ok (structuredServe mappers fb) ∧
    JSONHandler Y fb = .ok (structuredServe mappers fb) ∧
    ((∃ m ∈ mappers, m.Path = r.path) →
      ∃ m, mappers.find? (fun x => x.Path == r.path) = some m ∧
        structuredServe mappers fb r = Response.redirect 301 m.URL) ∧
    ((∀ m ∈ mappers, m.Path ≠ r.path) → structuredServe mappers fb r = fb r) := by
  refine ⟨by simp [YAMLHandler, hdec], by simp [JSONHandler, hdec], ?_, ?_⟩
  · intro hex
    obtain ⟨m, hm⟩ := find?_some_of_exists mappers r hex
    exact ⟨m, hm, structuredServe_of_find?_some mappers fb r m hm⟩
  · intro hall
    exact structuredServe_of_find?_none mappers fb r (find?_none_of_forall mappers r hall)

/-- Sample payload for C1's witness: two rules sharing the path `/a`, so
that the redirect target shows the first rule wins. -/
def dupPathPayload : Payload :=
  .ok (.arr [.obj [("path", .str "/a"), ("url", .str "http://first")],
             .obj [("path", .str "/a"), ("url", .str "http://second")]])

/-- Witness for C1 at a concrete rule set with a duplicated path. -/
theorem claim1_first_match_redirect_witness :
    decodePayload dupPathPayload =
      .ok [⟨"/a", "http://first"⟩, ⟨"/a", "http://second"⟩] ∧
    (YAMLHandler dupPathPayload helloWorldHandler =
      .ok (structuredServe [⟨"/a", "http://first"⟩, ⟨"/a", "http://second"⟩] helloWorldHandler) ∧
    JSONHandler dupPathPayload helloWorldHandler =
      .ok (structuredServe [⟨"/a", "http://first"⟩, ⟨"/a", "http://second"⟩] helloWorldHandler) ∧
    ((∃ m ∈ [URLMapper.mk "/a" "http://first", URLMapper.mk "/a" "http://second"],
        m.Path = "/a") →
      ∃ m, List.find? (fun x => x.Path == "/a")
          [URLMapper.mk "/a" "http://first", URLMapper.mk "/a" "http://second"] = some m ∧
        structuredServe [⟨"/a", "http://first"⟩, ⟨"/a", "http://second"⟩] helloWorldHandler
          ⟨"/a", "GET", ""⟩ = Response.redirect 301 m.URL) ∧
    ((∀ m ∈ [URLMapper.mk "/a" "http://first", URLMapper.mk "/a" "http://second"],
        m.Path ≠ "/a") →
      structuredServe [⟨"/a", "http://first"⟩, ⟨"/a", "http://second"⟩] helloWorldHandler
        ⟨"/a", "GET", ""⟩ = helloWorldHandler ⟨"/a", "GET", ""⟩)) :=
  ⟨rfl, claim1_first_match_redirect dupPathPayload _ helloWorldHandler ⟨"/a", "GET", ""⟩ rfl⟩

/-- C2: a payload that fails to decode makes `YAMLHandler` / `JSONHandler`
return the decode error and no handler at all — construction is
all-or-nothing. -/
theorem claim2_decode_failure_no_handler (P : Payload) (fb : Handler) (e : String)
    (hf : decodePayload P = .error e) :
    YAMLHandler P fb = .error e ∧ JSONHandler P fb = .error e ∧
    (∀ h, YAMLHandler P fb ≠ .ok h) ∧ (∀ h, JSONHandler P fb ≠ .ok h) := by
  refine ⟨by simp [YAMLHandler, hf], by simp [JSONHandler, hf], ?_, ?_⟩
  · intro h
    simp [YAMLHandler, hf]
  · intro h
    simp [JSONHandler, hf]

/-- Sample payload for C2's witness: the document is a scalar instead of a
list, which is a decode type error. -/
def scalarPayload : Payload :=
  .ok (.str "hello")

/-- Witness for C2 at the scalar payload. -/
theorem claim2_decode_failure_no_handler_witness :
    decodePayload scalarPayload = .error "cannot unmarshal value into slice of URLMapper" ∧
    (YAMLHandler scalarPayload helloWorldHandler =
        .error "cannot unmarshal value into slice of URLMapper" ∧
      JSONHandler scalarPayload helloWorldHandler =
        .error "cannot unmarshal value into slice of URLMapper" ∧
      (∀ h, YAMLHandler scalarPayload helloWorldHandler ≠ .ok h) ∧
      (∀ h, JSONHandler scalarPayload helloWorldHandler ≠ .ok h)) :=
  ⟨rfl, claim2_decode_failure_no_handler scalarPayload helloWorldHandler _ rfl⟩

/-- C5: rule matching is exact string equality between the rule path and
the request path, with no normalization: whenever two candidate paths
differ as strings, a rule for one does not fire for the other, in both
the structured-rule handler and the map handler. -/
theorem claim5_exact_string_match (p q u mth rq : String) (fb : Handler) (hpq : p ≠ q) :
    structuredServe [⟨p, u⟩] fb ⟨p, mth, rq⟩ = Response.redirect 301 u ∧
    structuredServe [⟨p, u⟩] fb ⟨q, mth, rq⟩ = fb ⟨q, mth, rq⟩ ∧
    MapHandler [(p, u)] fb ⟨p, mth, rq⟩ = Response.redirect 301 u ∧
    MapHandler [(p, u)] fb ⟨q, mth, rq⟩ = fb ⟨q, mth, rq⟩ := by
  have hbeq : (q == p) = false := beq_eq_false_iff_ne.mpr (Ne.symm hpq)
  refine ⟨by simp [structuredServe], ?_, by simp [MapHandler, List.lookup], ?_⟩
  · simp only [structuredServe]
    rw [if_neg hpq]
  · simp [MapHandler, List.lookup, hbeq]

/-- Witness for C5: a trailing slash, a case change, and an appended query
string each defeat the match. -/
theorem claim5_exact_string_match_witness :
    ("/abc" ≠ "/abc/" ∧
      (structuredServe [⟨"/abc", "u"⟩] helloWorldHandler ⟨"/abc", "GET", ""⟩ =
          Response.redirect 301 "u" ∧
        structuredServe [⟨"/abc", "u"⟩] helloWorldHandler ⟨"/abc/", "GET", ""⟩ =
          helloWorldHandler ⟨"/abc/", "GET", ""⟩ ∧
        MapHandler [("/abc", "u")] helloWorldHandler ⟨"/abc", "GET", ""⟩ =
          Response.redirect 301 "u" ∧
        MapHandler [("/abc", "u")] helloWorldHandler ⟨"/abc/", "GET", ""⟩ =
          helloWorldHandler ⟨"/abc/", "GET", ""⟩)) ∧
    ("/abc" ≠ "/ABC" ∧
      (structuredServe [⟨"/abc", "u"⟩] helloWorldHandler ⟨"/abc", "GET", ""⟩ =
          Response.redirect 301 "u" ∧
        structuredServe [⟨"/abc", "u"⟩] helloWorldHandler ⟨"/ABC", "GET", ""⟩ =
          helloWorldHandler ⟨"/ABC", "GET", ""⟩ ∧
        MapHandler [("/abc", "u")] helloWorldHandler ⟨"/abc", "GET", ""⟩ =
          Response.redirect 301 "u" ∧
        MapHandler [("/abc", "u")] helloWorldHandler ⟨"/ABC", "GET", ""⟩ =
          helloWorldHandler ⟨"/ABC", "GET", ""⟩)) ∧
    ("/abc" ≠ "/abc?x=1" ∧
      (structuredServe [⟨"/abc", "u"⟩] helloWorldHandler ⟨"/abc", "GET", ""⟩ =
          Response.redirect 301 "u" ∧
        structuredServe [⟨"/abc", "u"⟩] helloWorldHandler ⟨"/abc?x=1", "GET", ""⟩ =
          helloWorldHandler ⟨"/abc?x=1", "GET", ""⟩ ∧
        MapHandler [("/abc", "u")] helloWorldHandler ⟨"/abc", "GET", ""⟩ =
          Response.redirect 301 "u" ∧
        MapHandler [("/abc", "u")] helloWorldHandler ⟨"/abc?x=1", "GET", ""⟩ =
          helloWorldHandler ⟨"/abc?x=1", "GET", ""⟩)) :=
  ⟨⟨by decide, claim5_exact_string_match "/abc" "/abc/" "u" "GET" "" helloWorldHandler
      (by decide)⟩,
   ⟨by decide, claim5_exact_string_match "/abc" "/ABC" "u" "GET" "" helloWorldHandler
      (by decide)⟩,
   ⟨by decide, claim5_exact_string_match "/abc" "/abc?x=1" "u" "GET" "" helloWorldHandler
      (by decide)⟩⟩

/-- A supplied-but-empty YAML file: the bytes are non-nil, and parsing the
empty document yields the null value, which unmarshals to the empty rule
set. -/
def emptyYamlFile : SpecPayload :=
  ⟨true, .ok .null⟩

/-- A supplied, non-empty JSON file holding one rule mapping `/a` to
`http://j`. -/
def jsonRuleFile : SpecPayload :=
  ⟨false, .ok (.arr [.obj [("path", .str "/a"), ("url", .str "http://j")]])⟩

/-- C3 counterexample: with a supplied empty YAML file together with a
supplied non-empty JSON rule file, the claim's selection (supplied AND
non-empty) uses the JSON router and redirects `/a`, but `main` only tests
the bytes for nil, takes the YAML branch with zero rules, and ignores the
JSON payload, so `/a` falls through to the default greeting. -/
theorem claim3_counterexample :
    specServe (some emptyYamlFile) (some jsonRuleFile) ⟨"/a", "GET", ""⟩ =
      some (Response.redirect 301 "http://j") ∧
    serveMain (toBytes (some emptyYamlFile)) (toBytes (some jsonRuleFile)) ⟨"/a", "GET", ""⟩ =
      some (Response.page 200 "Hello, world!\n") ∧
    serveMain (toBytes (some emptyYamlFile)) (toBytes (some jsonRuleFile)) ⟨"/a", "GET", ""⟩ ≠
      specServe (some emptyYamlFile) (some jsonRuleFile) ⟨"/a", "GET", ""⟩ := by
  exact ⟨rfl, rfl, by decide⟩

/-- C3 as amended: the selection in `main` keys only on whether each
payload's bytes are nil (file supplied and readable), not on emptiness:
a supplied YAML payload — even an empty one — selects the YAML router;
else a supplied JSON payload selects the JSON router; else the exact-match
map handler is used directly; when both are supplied the JSON payload is
ignored entirely. -/
theorem claim3_amended_selection (y j : Payload) (jb : Option Payload) :
    mainStartup (some y) jb = makeYAMLHandler y (makeMapHandler makeDefaultMux) ∧
    mainStartup none (some j) = makeJSONHandler j (makeMapHandler makeDefaultMux) ∧
    mainStartup none none = .started (makeMapHandler makeDefaultMux) ∧
    (∀ jb2, mainStartup (some y) jb = mainStartup (some y) jb2) :=
  ⟨rfl, rfl, rfl, fun _ => rfl⟩

/-- C4: a supplied structured payload that fails to decode aborts the
process at startup with the decode error, and the server never starts
serving. -/
theorem claim4_decode_failure_fatal (y j : Payload) (jb : Option Payload) (e : String) :
    (decodePayload y = .error e →
      mainStartup (some y) jb = .aborted e ∧
      (∀ h, mainStartup (some y) jb ≠ .started h) ∧
      (∀ r, serveMain (some y) jb r = none)) ∧
    (decodePayload j = .error e →
      mainStartup none (some j) = .aborted e ∧
      (∀ h, mainStartup none (some j) ≠ .started h) ∧
      (∀ r, serveMain none (some j) r = none)) := by
  constructor
  · intro hf
    have hy : mainStartup (some y) jb = .aborted e := by
      simp [mainStartup, makeYAMLHandler, YAMLHandler, hf]
    refine ⟨hy, ?_, ?_⟩
    · intro h hc
      rw [hy] at hc
      cases hc
    · intro r
      simp [serveMain, hy]
  · intro hf
    have hj : mainStartup none (some j) = .aborted e := by
      simp [mainStartup, makeJSONHandler, JSONHandler, hf]
    refine ⟨hj, ?_, ?_⟩
    · intro h hc
      rw [hj] at hc
      cases hc
    · intro r
      simp [serveMain, hj]

/-- The parse outcome of the bytes `not valid json`: a byte-level parse
error from the JSON library. -/
def notValidJson : Payload :=
  .error "invalid character 'o' in literal null (expecting 'u')"

/-- Witness for C4 at the unparsable JSON payload. -/
theorem claim4_decode_failure_fatal_witness :
    decodePayload notValidJson =
      .error "invalid character 'o' in literal null (expecting 'u')" ∧
    (mainStartup none (some notValidJson) =
        .aborted "invalid character 'o' in literal null (expecting 'u')" ∧
      (∀ h, mainStartup none (some notValidJson) ≠ .started h) ∧
      (∀ r, serveMain none (some notValidJson) r = none)) :=
  ⟨rfl, (claim4_decode_failure_fatal notValidJson notValidJson none _).2 rfl⟩

lemma composed_structured_first (ms : List URLMapper) (r : Request)
    (hex : ∃ m ∈ ms, m.Path = r.path) :
    ∃ m, ms.find? (fun x => x.Path == r.path) = some m ∧
      structuredServe ms (makeMapHandler makeDefaultMux) r = Response.redirect 301 m.URL := by
  obtain ⟨m, hm⟩ := find?_some_of_exists ms r hex
  exact ⟨m, hm, structuredServe_of_find?_some ms _ r m hm⟩

lemma composed_builtin_hit (ms : List URLMapper) (r : Request) (url : String)
    (hall : ∀ m ∈ ms, m.Path ≠ r.path) (hmap : builtinMap.lookup r.path = some url) :
    structuredServe ms (makeMapHandler makeDefaultMux) r = Response.redirect 301 url := by
  rw [structuredServe_of_find?_none ms _ r (find?_none_of_forall ms r hall)]
  simp [makeMapHandler, MapHandler, hmap]

lemma composed_builtin_miss (ms : List URLMapper) (r : Request)
    (hall : ∀ m ∈ ms, m.Path ≠ r.path) (hmap : builtinMap.lookup r.path = none) :
    structuredServe ms (makeMapHandler makeDefaultMux) r =
      Response.page 200 "Hello, world!\n" := by
  rw [structuredServe_of_find?_none ms _ r (find?_none_of_forall ms r hall)]
  simp [makeMapHandler, MapHandler, hmap, makeDefaultMux, helloWorldHandler]

/-- C6: the layering order of the composed handler is supplied structured
rule set over built-in static map over default greeting: when the decoded
rule set covers the request path, its rule wins (even for paths also in
the built-in map); when only the built-in map covers it, the built-in
redirect wins over the default greeting; this holds for the YAML and the
JSON selection alike. -/
theorem claim6_layering (y : Payload) (ms : List URLMapper) (r : Request) (url : String)
    (hdec : decodePayload y = .ok ms) :
    (∃ h, mainStartup (some y) none = .started h ∧
      ((∃ m ∈ ms, m.Path = r.path) →
        ∃ m, ms.find? (fun x => x.Path == r.path) = some m ∧
          h r = Response.redirect 301 m.URL) ∧
      ((∀ m ∈ ms, m.Path ≠ r.path) → builtinMap.lookup r.path = some url →
        h r = Response.redirect 301 url) ∧
      ((∀ m ∈ ms, m.Path ≠ r.path) → builtinMap.lookup r.path = none →
        h r = Response.page 200 "Hello, world!\n")) ∧
    (∃ h, mainStartup none (some y) = .started h ∧
      ((∃ m ∈ ms, m.Path = r.path) →
        ∃ m, ms.find? (fun x => x.Path == r.path) = some m ∧
          h r = Response.redirect 301 m.URL) ∧
      ((∀ m ∈ ms, m.Path ≠ r.path) → builtinMap.lookup r.path = some url →
        h r = Response.redirect 301 url) ∧
      ((∀ m ∈ ms, m.Path ≠ r.path) → builtinMap.lookup r.path = none →
        h r = Response.page 200 "Hello, world!\n")) := by
  constructor
  · refine ⟨structuredServe ms (makeMapHandler makeDefaultMux), ?_, ?_, ?_, ?_⟩
    · simp [mainStartup, makeYAMLHandler, YAMLHandler, hdec]
    · exact composed_structured_first ms r
    · exact composed_builtin_hit ms r url
    · exact composed_builtin_miss ms r
  · refine ⟨structuredServe ms (makeMapHandler makeDefaultMux), ?_, ?_, ?_, ?_⟩
    · simp [mainStartup, makeJSONHandler, JSONHandler, hdec]
    · exact composed_structured_first ms r
    · exact composed_builtin_hit ms r url
    · exact composed_builtin_miss ms r

/-- The scenario-1 payload: one rule overriding `/urlshort-godoc`, a path
that the built-in map also covers. -/
def overridePayload : Payload :=
  .ok (.arr [.obj [("path", .str "/urlshort-godoc"),
                   ("url", .str "https://override.example.com")]])

/-- Witness for C6 at the scenario-1 payload and the overridden path. -/
theorem claim6_layering_witness :
    decodePayload overridePayload = .ok [⟨"/urlshort-godoc", "https://override.example.com"⟩] ∧
    ((∃ h, mainStartup (some overridePayload) none = .started h ∧
      ((∃ m ∈ [URLMapper.mk "/urlshort-godoc" "https://override.example.com"],
          m.Path = "/urlshort-godoc") →
        ∃ m, List.find? (fun x => x.Path == "/urlshort-godoc")
            [URLMapper.mk "/urlshort-godoc" "https://override.example.com"] = some m ∧
          h ⟨"/urlshort-godoc", "GET", ""⟩ = Response.redirect 301 m.URL) ∧
      ((∀ m ∈ [URLMapper.mk "/urlshort-godoc" "https://override.example.com"],
          m.Path ≠ "/urlshort-godoc") →
        builtinMap.lookup "/urlshort-godoc" =
          some "https://godoc.org/github.com/gophercises/urlshort" →
        h ⟨"/urlshort-godoc", "GET", ""⟩ =
          Response.redirect 301 "https://godoc.org/github.com/gophercises/urlshort") ∧
      ((∀ m ∈ [URLMapper.mk "/urlshort-godoc" "https://override.example.com"],
          m.Path ≠ "/urlshort-godoc") →
        builtinMap.lookup "/urlshort-godoc" = none →
        h ⟨"/urlshort-godoc", "GET", ""⟩ = Response.page 200 "Hello, world!\n")) ∧
    (∃ h, mainStartup none (some overridePayload) = .started h ∧
      ((∃ m ∈ [URLMapper.mk "/urlshort-godoc" "https://override.example.com"],
          m.Path = "/urlshort-godoc") →
        ∃ m, List.find? (fun x => x.Path == "/urlshort-godoc")
            [URLMapper.mk "/urlshort-godoc" "https://override.example.com"] = some m ∧
          h ⟨"/urlshort-godoc", "GET", ""⟩ = Response.redirect 301 m.URL) ∧
      ((∀ m ∈ [URLMapper.mk "/urlshort-godoc" "https://override.example.com"],
          m.Path ≠ "/urlshort-godoc") →
        builtinMap.lookup "/urlshort-godoc" =
          some "https://godoc.org/github.com/gophercises/urlshort" →
        h ⟨"/urlshort-godoc", "GET", ""⟩ =
          Response.redirect 301 "https://godoc.org/github.com/gophercises/urlshort") ∧
      ((∀ m ∈ [URLMapper.mk "/urlshort-godoc" "https://override.example.com"],
          m.Path ≠ "/urlshort-godoc") →
        builtinMap.lookup "/urlshort-godoc" = none →
        h ⟨"/urlshort-godoc", "GET", ""⟩ = Response.page 200 "Hello, world!\n"))) :=
  ⟨rfl, claim6_layering overridePayload
    [⟨"/urlshort-godoc", "https://override.example.com"⟩]
    ⟨"/urlshort-godoc", "GET", ""⟩
    "https://godoc.org/github.com/gophercises/urlshort" rfl⟩

/-- C7: MapHandler is total and never fails: on a hit in the mapping it
emits a 301 redirect to the mapped URL, on a miss it invokes the fallback;
with no YAML/JSON supplied, a request to `/yaml-godoc` receives a 301
redirect to `https://godoc.org/gopkg.in/yaml.v2`. -/
theorem claim7_map_handler_total (mapping : List (String × String)) (fb : Handler)
    (r : Request) :
    (∀ url, mapping.lookup r.path = some url →
      MapHandler mapping fb r = Response.redirect 301 url) ∧
    (mapping.lookup r.path = none → MapHandler mapping fb r = fb r) ∧
    serveMain none none ⟨"/yaml-godoc", r.method, r.rawQuery⟩ =
      some (Response.redirect 301 "https://godoc.org/gopkg.in/yaml.v2") := by
  refine ⟨?_, ?_, rfl⟩
  · intro url hlk
    simp [MapHandler, hlk]
  · intro hlk
    simp [MapHandler, hlk]

/-- Witness for C7 at the built-in map and the `/yaml-godoc` path. -/
theorem claim7_map_handler_total_witness :
    builtinMap.lookup "/yaml-godoc" = some "https://godoc.org/gopkg.in/yaml.v2" ∧
    MapHandler builtinMap helloWorldHandler ⟨"/yaml-godoc", "GET", ""⟩ =
      Response.redirect 301 "https://godoc.org/gopkg.in/yaml.v2" ∧
    serveMain none none ⟨"/yaml-godoc", "GET", ""⟩ =
      some (Response.redirect 301 "https://godoc.org/gopkg.in/yaml.v2") :=
  ⟨rfl,
   (claim7_map_handler_total builtinMap helloWorldHandler ⟨"/yaml-godoc", "GET", ""⟩).1
     "https://godoc.org/gopkg.in/yaml.v2" rfl,
   (claim7_map_handler_total builtinMap helloWorldHandler ⟨"/yaml-godoc", "GET", ""⟩).2.2⟩

/-- C8 counterexample: with no YAML/JSON supplied, a request to `/unknown`
does get status 200, but `fmt.Fprintln` writes the body followed by a
newline, so the body is not exactly the 13 characters the claim states. -/
theorem claim8_counterexample :
    serveMain none none ⟨"/unknown", "GET", ""⟩ =
      some (Response.page 200 "Hello, world!\n") ∧
    serveMain none none ⟨"/unknown", "GET", ""⟩ ≠
      some (Response.page 200 "Hello, world!") :=
  ⟨rfl, by decide⟩

/-- C8 as amended: for every request path that matches no rule anywhere in
the chain, the terminal default handler responds with status 200 and the
fixed plain-text body `Hello, world!` followed by a newline (written by
`fmt.Fprintln`). -/
theorem claim8_amended_default_greeting (r : Request)
    (hmiss : builtinMap.lookup r.path = none) :
    helloWorldHandler r = Response.page 200 "Hello, world!\n" ∧
    serveMain none none r = some (Response.page 200 "Hello, world!\n") := by
  refine ⟨rfl, ?_⟩
  simp [serveMain, mainStartup, makeMapHandler, MapHandler, hmiss, makeDefaultMux,
    helloWorldHandler]

/-- Witness for the amended C8 at the `/unknown` path. -/
theorem claim8_amended_default_greeting_witness :
    builtinMap.lookup "/unknown" = none ∧
    (helloWorldHandler ⟨"/unknown", "GET", ""⟩ = Response.page 200 "Hello, world!\n" ∧
      serveMain none none ⟨"/unknown", "GET", ""⟩ =
        some (Response.page 200 "Hello, world!\n")) :=
  ⟨rfl, claim8_amended_default_greeting ⟨"/unknown", "GET", ""⟩ rfl⟩

lemma makeMapHandler_path_det (r1 r2 : Request) (hp : r1.path = r2.path) :
    makeMapHandler makeDefaultMux r1 = makeMapHandler makeDefaultMux r2 := by
  simp only [makeMapHandler, MapHandler, makeDefaultMux, helloWorldHandler, hp]

lemma structuredServe_path_det (ms : List URLMapper) (fb : Handler)
    (hfb : ∀ r1 r2, r1.path = r2.path → fb r1 = fb r2) (r1 r2 : Request)
    (hp : r1.path = r2.path) :
    structuredServe ms fb r1 = structuredServe ms fb r2 := by
  induction ms with
  | nil => exact hfb r1 r2 hp
  | cons m rest ih =>
    simp only [structuredServe]
    rw [hp]
    by_cases hm : m.Path = r2.path
    · simp [hm]
    · simp only [if_neg hm]
      exact ih

/-- C9: request handling is deterministic in the request path and the
startup configuration: whatever handler startup installs, two requests
with the same path get the same response, whatever their method or query
string. -/
theorem claim9_path_deterministic (yamlBytes jsonBytes : Option Payload) (h : Handler)
    (r1 r2 : Request) (hs : mainStartup yamlBytes jsonBytes = .started h)
    (hp : r1.path = r2.path) :
    h r1 = h r2 := by
  have hmap : ∀ s1 s2 : Request, s1.path = s2.path →
      makeMapHandler makeDefaultMux s1 = makeMapHandler makeDefaultMux s2 :=
    makeMapHandler_path_det
  cases yamlBytes with
  | some y =>
    cases hd : decodePayload y with
    | error e =>
      rw [show mainStartup (some y) jsonBytes = .aborted e by
        simp [mainStartup, makeYAMLHandler, YAMLHandler, hd]] at hs
      cases hs
    | ok ms =>
      rw [show mainStartup (some y) jsonBytes =
          .started (structuredServe ms (makeMapHandler makeDefaultMux)) by
        simp [mainStartup, makeYAMLHandler, YAMLHandler, hd]] at hs
      injection hs with hh
      subst hh
      exact structuredServe_path_det ms _ hmap r1 r2 hp
  | none =>
    cases jsonBytes with
    | some j =>
      cases hd : decodePayload j with
      | error e =>
        rw [show mainStartup none (some j) = .aborted e by
          simp [mainStartup, makeJSONHandler, JSONHandler, hd]] at hs
        cases hs
      | ok ms =>
        rw [show mainStartup none (some j) =
            .started (structuredServe ms (makeMapHandler makeDefaultMux)) by
          simp [mainStartup, makeJSONHandler, JSONHandler, hd]] at hs
        injection hs with hh
        subst hh
        exact structuredServe_path_det ms _ hmap r1 r2 hp
    | none =>
      rw [show mainStartup none none = .started (makeMapHandler makeDefaultMux) from rfl] at hs
      injection hs with hh
      subst hh
      exact hmap r1 r2 hp

/-- Witness for C9: same path, different method and query string, same
response. -/
theorem claim9_path_deterministic_witness :
    mainStartup none none = .started (makeMapHandler makeDefaultMux) ∧
    Request.path ⟨"/x", "GET", ""⟩ = Request.path ⟨"/x", "POST", "a=1"⟩ ∧
    makeMapHandler makeDefaultMux ⟨"/x", "GET", ""⟩ =
      makeMapHandler makeDefaultMux ⟨"/x", "POST", "a=1"⟩ :=
  ⟨rfl, rfl,
   claim9_path_deterministic none none (makeMapHandler makeDefaultMux)
     ⟨"/x", "GET", ""⟩ ⟨"/x", "POST", "a=1"⟩ rfl rfl⟩

/-- Tests that a parsed value is a string, the only kind that decodes
into a `path` or `url` field without error besides null. -/
def isStr : Jval → Bool
  | .str _ => true
  | _ => false

/-- Tests that every `path` or `url` field of a parsed object carries a
string value (other keys are unconstrained). -/
def goodFields (fs : List (String × Jval)) : Bool :=
  fs.all (fun kv => !(kv.1 == "path" || kv.1 == "url") || isStr kv.2)

/-- Tests whether a parsed object has a field with the given key. -/
def hasKey (fs : List (String × Jval)) (k : String) : Bool :=
  fs.any (fun kv => kv.1 == k)

lemma isStr_exists (v : Jval) (h : isStr v = true) : ∃ s, v = Jval.str s := by
  cases v with
  | str s => exact ⟨s, rfl⟩
  | _ => simp [isStr] at h

lemma decodeMapperFields_ok (fs : List (String × Jval)) :
    ∀ acc, goodFields fs = true →
    ∃ m, decodeMapperFields acc fs = .ok m ∧
      (hasKey fs "path" = false → m.Path = acc.Path) ∧
      (hasKey fs "url" = false → m.URL = acc.URL) := by
  induction fs with
  | nil =>
    intro acc _
    exact ⟨acc, rfl, fun _ => rfl, fun _ => rfl⟩
  | cons kv rest ih =>
    intro acc hg
    obtain ⟨k, v⟩ := kv
    have hg2 : goodFields rest = true := by
      simp only [goodFields, List.all_cons, Bool.and_eq_true] at hg
      exact hg.2
    by_cases hk : k = "path"
    · have hv : isStr v = true := by
        simp only [goodFields, List.all_cons, Bool.and_eq_true] at hg
        have := hg.1
        simpa [hk] using this
      obtain ⟨s, rfl⟩ := isStr_exists v hv
      obtain ⟨m, hok, hpth, hurl⟩ := ih { acc with Path := s } hg2
      refine ⟨m, ?_, ?_, ?_⟩
      · simpa [decodeMapperFields, hk] using hok
      · intro hnk
        simp [hasKey, hk] at hnk
      · intro hnk
        simp only [hasKey, List.any_cons, Bool.or_eq_false_iff] at hnk
        exact hurl (by simpa [hasKey] using hnk.2)
    · by_cases hk2 : k = "url"
      · have hv : isStr v = true := by
          simp only [goodFields, List.all_cons, Bool.and_eq_true] at hg
          have := hg.1
          simpa [hk2] using this
        obtain ⟨s, rfl⟩ := isStr_exists v hv
        obtain ⟨m, hok, hpth, hurl⟩ := ih { acc with URL := s } hg2
        refine ⟨m, ?_, ?_, ?_⟩
        · simpa [decodeMapperFields, hk, hk2] using hok
        · intro hnk
          simp only [hasKey, List.any_cons, Bool.or_eq_false_iff] at hnk
          exact hpth (by simpa [hasKey] using hnk.2)
        · intro hnk
          simp [hasKey, hk2] at hnk
      · obtain ⟨m, hok, hpth, hurl⟩ := ih acc hg2
        refine ⟨m, ?_, ?_, ?_⟩
        · simpa [decodeMapperFields, hk, hk2] using hok
        · intro hnk
          simp only [hasKey, List.any_cons, Bool.or_eq_false_iff] at hnk
          exact hpth (by simpa [hasKey] using hnk.2)
        · intro hnk
          simp only [hasKey, List.any_cons, Bool.or_eq_false_iff] at hnk
          exact hurl (by simpa [hasKey] using hnk.2)

lemma decodeMapper_obj_ok (fs : List (String × Jval)) (hg : goodFields fs = true) :
    ∃ m, decodeMapper (.obj fs) = .ok m ∧
      (hasKey fs "path" = false → m.Path = "") ∧
      (hasKey fs "url" = false → m.URL = "") := by
  simpa [decodeMapper] using decodeMapperFields_ok fs ⟨"", ""⟩ hg

lemma decodeMappers_obj_ok (fss : List (List (String × Jval)))
    (hg : fss.all goodFields = true) :
    ∃ ms, decodeMappers (fss.map Jval.obj) = .ok ms := by
  induction fss with
  | nil => exact ⟨[], rfl⟩
  | cons fs rest ih =>
    simp only [List.all_cons, Bool.and_eq_true] at hg
    obtain ⟨m, hm, -, -⟩ := decodeMapper_obj_ok fs hg.1
    obtain ⟨ms, hms⟩ := ih hg.2
    exact ⟨m :: ms, by simp [decodeMappers, hm, hms]⟩

/-- C10: decoding does not validate field presence — every parsed list of
objects whose `path` / `url` fields, when present, hold strings decodes
without error, with absent fields defaulting to the empty string, and the
resulting handler answers a request whose path equals such a rule's
(possibly empty) path with a 301 redirect to its (possibly empty) url. -/
theorem claim10_lenient_decode (fss : List (List (String × Jval))) (fb : Handler)
    (hgood : fss.all goodFields = true) :
    (∃ ms, unmarshalMappers (.arr (fss.map .obj)) = .ok ms ∧
      YAMLHandler (.ok (.arr (fss.map .obj))) fb = .ok (structuredServe ms fb) ∧
      JSONHandler (.ok (.arr (fss.map .obj))) fb = .ok (structuredServe ms fb) ∧
      (∀ r m, ms.find? (fun x => x.Path == r.path) = some m →
        structuredServe ms fb r = Response.redirect 301 m.URL)) ∧
    (∀ fs, goodFields fs = true →
      ∃ m, decodeMapper (.obj fs) = .ok m ∧
        (hasKey fs "path" = false → m.Path = "") ∧
        (hasKey fs "url" = false → m.URL = "")) := by
  constructor
  · obtain ⟨ms, hms⟩ := decodeMappers_obj_ok fss hgood
    refine ⟨ms, by simpa [unmarshalMappers] using hms, ?_, ?_, ?_⟩
    · simp [YAMLHandler, decodePayload, Except.bind, unmarshalMappers, hms]
    · simp [JSONHandler, decodePayload, Except.bind, unmarshalMappers, hms]
    · intro r m hm
      exact structuredServe_of_find?_some ms fb r m hm
  · exact decodeMapper_obj_ok

/-- The C10 sample payload body: one object with no `path` field, a string
`url` field, and an unknown extra field. -/
def lenientFields : List (List (String × Jval)) :=
  [[("url", .str "http://only-url"), ("extra", .num 5)]]

/-- Witness for C10 at an object missing `path` and carrying an extra
field. -/
theorem claim10_lenient_decode_witness :
    lenientFields.all goodFields = true ∧
    ((∃ ms, unmarshalMappers (.arr (lenientFields.map .obj)) = .ok ms ∧
      YAMLHandler (.ok (.arr (lenientFields.map .obj))) helloWorldHandler =
        .ok (structuredServe ms helloWorldHandler) ∧
      JSONHandler (.ok (.arr (lenientFields.map .obj))) helloWorldHandler =
        .ok (structuredServe ms helloWorldHandler) ∧
      (∀ r m, ms.find? (fun x => x.Path == r.path) = some m →
        structuredServe ms helloWorldHandler r = Response.redirect 301 m.URL)) ∧
    (∀ fs, goodFields fs = true →
      ∃ m, decodeMapper (.obj fs) = .ok m ∧
        (hasKey fs "path" = false → m.Path = "") ∧
        (hasKey fs "url" = false → m.URL = ""))) :=
  ⟨rfl, claim10_lenient_decode lenientFields helloWorldHandler rfl⟩

end UrlShort
